import Mathlib

/-!
# VIP port reconciliation (`pkg/cloud/services/networking/port.go`)

A shallow embedding of `ReconcileVIPPort` and `DeleteVIPPort`.

The OpenStack client (`s.client`, reached through the gophercloud packages
`ports` and `floatingips`) is an explicit collaborator: a record of
operations over an arbitrary store state `σ`.  Every operation takes the
store state, answers with a result (or an error) and leaves a new store
state.  Each request the code sends is appended to a list of calls, so that
the order and number of requests are observable.  Logging (`s.logger`) has
no effect on the cluster object, the store or the returned error and is not
modelled.
-/

set_option linter.dupNamespace false

namespace networking

/-- A Go `error` value, identified by its message (`err.Error()`). -/
abbrev Error := String

/-! ## gophercloud `ports` -/

namespace ports

/-- Type `ports.IP`: a fixed IP of a port. -/
structure IP where
  SubnetID : String
  IPAddress : String
deriving DecidableEq, Repr

/-- Type `ports.Port`, with the fields this file reads or a store fills in. -/
structure Port where
  ID : String
  NetworkID : String
  Name : String
  FixedIPs : List IP
deriving DecidableEq, Repr

/-- Type `ports.ListOpts`; the code sets `Name` only. -/
structure ListOpts where
  Name : String
deriving DecidableEq, Repr

/-- Type `ports.CreateOpts`; the code sets `Name`, `NetworkID` and `FixedIPs`. -/
structure CreateOpts where
  Name : String
  NetworkID : String
  FixedIPs : List IP
deriving DecidableEq, Repr

end ports

/-! ## gophercloud `floatingips` -/

namespace floatingips

/-- Type `floatingips.FloatingIP`. `PortID` is empty when the floating IP is
not associated. -/
structure FloatingIP where
  ID : String
  FloatingNetworkID : String
  FloatingIP : String
  PortID : String
deriving DecidableEq, Repr

/-- Type `floatingips.CreateOpts`; the code sets `FloatingIP` and
`FloatingNetworkID`. -/
structure CreateOpts where
  FloatingIP : String
  FloatingNetworkID : String
deriving DecidableEq, Repr

/-- Type `floatingips.UpdateOpts`; `PortID` is a `*string`. -/
structure UpdateOpts where
  PortID : Option String
deriving DecidableEq, Repr

end floatingips

/-! ## `infrav1` (api/v1alpha3) -/

namespace infrav1

/-- Type `infrav1.Subnet`. -/
structure Subnet where
  Name : String
  ID : String
  CIDR : String
deriving DecidableEq, Repr

/-- Type `infrav1.UnmanagedPort`: the status record of the VIP port. -/
structure UnmanagedPort where
  Name : String
  ID : String
  IP : String
deriving DecidableEq, Repr

/-- Type `infrav1.Network`; `Subnet` and `UnmanagedPort` are pointers. -/
structure Network where
  Name : String
  ID : String
  Subnet : Option Subnet
  UnmanagedPort : Option UnmanagedPort
deriving DecidableEq, Repr

/-- Type `infrav1.OpenStackClusterSpec`, the fields `ReconcileVIPPort` reads. -/
structure OpenStackClusterSpec where
  ExternalNetworkID : String
  ControlPlaneInternalIP : String
  APIServerLoadBalancerFloatingIP : String
deriving DecidableEq, Repr

/-- Type `infrav1.OpenStackClusterStatus`; `Network` is a pointer. -/
structure OpenStackClusterStatus where
  Ready : Bool
  Network : Option Network
deriving DecidableEq, Repr

/-- Type `infrav1.OpenStackCluster`. -/
structure OpenStackCluster where
  Spec : OpenStackClusterSpec
  Status : OpenStackClusterStatus
deriving DecidableEq, Repr

end infrav1

/-! ## Store requests -/

/-- One request sent to the store. -/
inductive Call where
  /-- Request `ports.List(s.client, opts).AllPages()`. -/
  | portsList (opts : ports.ListOpts)
  /-- Request `ports.Create(s.client, opts)`. -/
  | portsCreate (opts : ports.CreateOpts)
  /-- Request `ports.Delete(s.client, id)`. -/
  | portsDelete (id : String)
  /-- Lookup `checkIfFloatingIPExists(s.client, ip)`. -/
  | checkIfFloatingIPExists (ip : String)
  /-- Request `floatingips.Create(s.client, opts)`. -/
  | floatingipsCreate (opts : floatingips.CreateOpts)
  /-- Request `floatingips.Update(s.client, id, opts)`. -/
  | floatingipsUpdate (id : String) (opts : floatingips.UpdateOpts)
deriving DecidableEq, Repr

namespace Call

/-- Is the request a `ports.Create`? -/
def isPortsCreate : Call → Bool
  | portsCreate _ => true
  | _ => false

/-- Is the request a `floatingips.Create`? -/
def isFloatingipsCreate : Call → Bool
  | floatingipsCreate _ => true
  | _ => false

/-- Is the request a `floatingips.Update`? -/
def isFloatingipsUpdate : Call → Bool
  | floatingipsUpdate _ _ => true
  | _ => false

/-- Is the request about floating IPs (lookup, create or update)? -/
def isFloatingIP : Call → Bool
  | checkIfFloatingIPExists _ => true
  | floatingipsCreate _ => true
  | floatingipsUpdate _ _ => true
  | _ => false

end Call

/-- The receiver `s *Service`, reduced to its client: what the store answers
to each request in store state `σ`, and the store state it leaves. `π` is the
type of the raw pages a list request returns. `checkIfFloatingIPExists` is a
function of the package whose file is not among the sources; it is taken as
one more operation of the collaborator. -/
structure Service (σ π : Type) where
  /-- The answer to `ports.List(s.client, opts).AllPages()`. -/
  portsList : ports.ListOpts → σ → Except Error π × σ
  /-- Function `ports.ExtractPorts(allPages)`: decodes the pages, no request. -/
  ExtractPorts : π → Except Error (List ports.Port)
  /-- The answer to `ports.Create(s.client, opts).Extract()`. -/
  portsCreate : ports.CreateOpts → σ → Except Error ports.Port × σ
  /-- The answer to `ports.Delete(s.client, id)`: its `Err` field. -/
  portsDelete : String → σ → Option Error × σ
  /-- The answer to `checkIfFloatingIPExists(s.client, ip)`; `none` is the
  nil pointer. -/
  checkIfFloatingIPExists : String → σ → Except Error (Option floatingips.FloatingIP) × σ
  /-- The answer to `floatingips.Create(s.client, opts).Extract()`. -/
  floatingipsCreate : floatingips.CreateOpts → σ → Except Error floatingips.FloatingIP × σ
  /-- The answer to `floatingips.Update(s.client, id, opts).Extract()`. -/
  floatingipsUpdate : String → floatingips.UpdateOpts → σ →
    Except Error floatingips.FloatingIP × σ

/-- What a call of `ReconcileVIPPort` leaves behind: the returned error
(`none` is `nil`), the cluster object behind the pointer, the store and the
requests sent, in order. -/
structure Outcome (σ : Type) where
  err : Option Error
  cluster : infrav1.OpenStackCluster
  store : σ
  calls : List Call

/-- What a call of `DeleteVIPPort` leaves behind. -/
structure DeleteOutcome (σ : Type) where
  err : Option Error
  store : σ
  calls : List Call

/-- The name of the VIP port,
`fmt.Sprintf("%s-cluster-%s", networkPrefix, clusterName)`. The constant
`networkPrefix` is declared in another file of the package and is a
parameter here. -/
def portName (networkPrefix clusterName : String) : String :=
  networkPrefix ++ "-cluster-" ++ clusterName

/-- Lines 71-103 of `ReconcileVIPPort`: the code after the `if`/`else` that
sets `port`. `network` is `*openStackCluster.Status.Network` (non-nil here),
`calls` the requests sent so far. -/
def ReconcileVIPPort.floatingIP {σ π : Type} (s : Service σ π)
    (openStackCluster : infrav1.OpenStackCluster) (network : infrav1.Network)
    (port : ports.Port) (st : σ) (calls : List Call) : Outcome σ :=
  let ip := openStackCluster.Spec.APIServerLoadBalancerFloatingIP
  let calls := calls ++ [Call.checkIfFloatingIPExists ip]
  -- lines 72-75
  match s.checkIfFloatingIPExists ip st with
  | (.error err, st) => ⟨some err, openStackCluster, st, calls⟩
  | (.ok fp, st) =>
    -- associate floating ip (lines 89-103), reached from both branches of `fp == nil`
    let associate (fp : floatingips.FloatingIP) (st : σ) (calls : List Call) : Outcome σ :=
      let fpUpdateOpts : floatingips.UpdateOpts := { PortID := some port.ID }
      let calls := calls ++ [Call.floatingipsUpdate fp.ID fpUpdateOpts]
      match s.floatingipsUpdate fp.ID fpUpdateOpts st with
      | (.error err, st) =>
        ⟨some ("error allocating floating IP: " ++ err), openStackCluster, st, calls⟩
      | (.ok fp, st) =>
        let network := { network with
          UnmanagedPort := some { Name := port.Name, ID := port.ID, IP := fp.FloatingIP } }
        ⟨none,
          { openStackCluster with
            Status := { openStackCluster.Status with Network := some network } },
          st, calls⟩
    -- lines 77-87
    match fp with
    | none =>
      let fpCreateOpts : floatingips.CreateOpts :=
        { FloatingIP := ip, FloatingNetworkID := openStackCluster.Spec.ExternalNetworkID }
      let calls := calls ++ [Call.floatingipsCreate fpCreateOpts]
      match s.floatingipsCreate fpCreateOpts st with
      | (.error err, st) =>
        ⟨some ("error allocating floating IP: " ++ err), openStackCluster, st, calls⟩
      | (.ok fp, st) => associate fp st calls
    | some fp => associate fp st calls

/-- ReconcileVIPPort handles the creation of an unmanaged VIPPort used as
entry point for the cluster. -/
def ReconcileVIPPort {σ π : Type} (s : Service σ π) (networkPrefix clusterName : String)
    (openStackCluster : infrav1.OpenStackCluster) (st : σ) : Outcome σ :=
  -- lines 30-37: the two guards
  match openStackCluster.Status.Network with
  | none => ⟨none, openStackCluster, st, []⟩
  | some network =>
  match network.Subnet with
  | none => ⟨none, openStackCluster, st, []⟩
  | some subnet =>
  if subnet.ID = "" then ⟨none, openStackCluster, st, []⟩
  else if openStackCluster.Spec.ExternalNetworkID = "" then ⟨none, openStackCluster, st, []⟩
  else
    let portName := portName networkPrefix clusterName
    let calls := [Call.portsList { Name := portName }]
    -- lines 40-50
    match s.portsList { Name := portName } st with
    | (.error err, st) => ⟨some err, openStackCluster, st, calls⟩
    | (.ok allPages, st) =>
      match s.ExtractPorts allPages with
      | .error err => ⟨some err, openStackCluster, st, calls⟩
      | .ok portsList =>
        -- lines 51-70: `len(portsList) == 0`, else `portsList[0]`
        match portsList with
        | [] =>
          let options : ports.CreateOpts :=
            { Name := portName
              NetworkID := network.ID
              FixedIPs := [{ SubnetID := subnet.ID
                             IPAddress := openStackCluster.Spec.ControlPlaneInternalIP }] }
          let calls := calls ++ [Call.portsCreate options]
          match s.portsCreate options st with
          | (.error err, st) =>
            ⟨some ("error allocating VIP port: " ++ err), openStackCluster, st, calls⟩
          | (.ok newPort, st) =>
            ReconcileVIPPort.floatingIP s openStackCluster network newPort st calls
        | port :: _ =>
          ReconcileVIPPort.floatingIP s openStackCluster network port st calls

/-- DeleteVIPPort deletes the port representing the internal VIP of the
cluster if it was used. -/
def DeleteVIPPort {σ π : Type} (s : Service σ π)
    (unmanagedPort : Option infrav1.UnmanagedPort) (st : σ) : DeleteOutcome σ :=
  match unmanagedPort with
  | none => ⟨none, st, []⟩
  | some unmanagedPort =>
    match s.portsDelete unmanagedPort.ID st with
    | (some err, st) =>
      ⟨some ("error while deleting port: " ++ err), st, [Call.portsDelete unmanagedPort.ID]⟩
    | (none, st) => ⟨none, st, [Call.portsDelete unmanagedPort.ID]⟩

/-! ## Two concrete stores -/

/-- A store that gives the same answer to every request of a kind, whatever
was sent before: used to script one run. -/
def scripted (list : Except Error (List ports.Port)) (create : Except Error ports.Port)
    (delete : Option Error) (check : Except Error (Option floatingips.FloatingIP))
    (fipCreate fipUpdate : Except Error floatingips.FloatingIP) :
    Service Unit (List ports.Port) where
  portsList := fun _ st => (list, st)
  ExtractPorts := fun pages => .ok pages
  portsCreate := fun _ st => (create, st)
  portsDelete := fun _ st => (delete, st)
  checkIfFloatingIPExists := fun _ st => (check, st)
  floatingipsCreate := fun _ st => (fipCreate, st)
  floatingipsUpdate := fun _ _ st => (fipUpdate, st)

/-- The subnet `sub-1` of the scenario. -/
def demoSubnet : infrav1.Subnet where
  Name := "sub"
  ID := "sub-1"
  CIDR := "10.0.0.0/24"

/-- The network of the scenario, with its subnet and no status record yet. -/
def demoNetwork : infrav1.Network where
  Name := "net"
  ID := "net-1"
  Subnet := some demoSubnet
  UnmanagedPort := none

/-- The cluster of the scenario: subnet `sub-1`, fixed IP `10.0.0.5`, desired
floating IP `203.0.113.10` on the external network `ext-net`. -/
def demoCluster : infrav1.OpenStackCluster where
  Spec :=
    { ExternalNetworkID := "ext-net"
      ControlPlaneInternalIP := "10.0.0.5"
      APIServerLoadBalancerFloatingIP := "203.0.113.10" }
  Status := { Ready := false, Network := some demoNetwork }

/-- The port `P1` of the scenario. -/
def demoPort : ports.Port where
  ID := "P1"
  NetworkID := "net-1"
  Name := "openstack-cluster-demo"
  FixedIPs := [{ SubnetID := "sub-1", IPAddress := "10.0.0.5" }]

/-- The floating IP `F1` of the scenario, associated with `portID`. -/
def demoFloatingIP (portID : String) : floatingips.FloatingIP where
  ID := "F1"
  FloatingNetworkID := "ext-net"
  FloatingIP := "203.0.113.10"
  PortID := portID

/-- An in-memory store: the ports and floating IPs it holds, in the order it
lists them, and the counters from which it numbers new ones. -/
structure MemStore where
  ports : List ports.Port
  floatingIPs : List floatingips.FloatingIP
  nextPort : Nat
  nextFloatingIP : Nat
deriving DecidableEq, Repr

/-- Modelled from the spec: `checkIfFloatingIPExists`, a function of this
package whose file is not among the sources. The spec has the lookup "search
existing floating IPs for one whose address equals `desiredAddress`", done
as "a full-list-and-filter-by-address scan", absence being no error: of all
floating IPs of the store, the first whose address is `ip`. -/
def checkIfFloatingIPExists (all : List floatingips.FloatingIP) (ip : String) :
    Option floatingips.FloatingIP :=
  all.find? (fun fp => fp.FloatingIP == ip)

/-- The association a `floatingips.Update` of `id` makes in one entry of the
store: the entry named `id` gets the port reference of `opts`. -/
def MemStore.associate (id : String) (opts : floatingips.UpdateOpts)
    (fp : floatingips.FloatingIP) : floatingips.FloatingIP :=
  if fp.ID == id then { fp with PortID := opts.PortID.getD fp.PortID } else fp

/-- The in-memory store as a collaborator. Ports are listed by exact name.
A new port or floating IP is appended. A floating IP is created at the
requested address when it is free, and at an address of the provider's
choice when the request leaves it empty. An update sets the port reference
and nothing else. A port delete also clears the references to it. -/
def memService : Service MemStore (List ports.Port) where
  portsList := fun opts st => (.ok (st.ports.filter (fun p => p.Name == opts.Name)), st)
  ExtractPorts := fun pages => .ok pages
  portsCreate := fun opts st =>
    let port : ports.Port :=
      { ID := "P" ++ toString st.nextPort
        NetworkID := opts.NetworkID
        Name := opts.Name
        FixedIPs := opts.FixedIPs }
    (.ok port, { st with ports := st.ports ++ [port], nextPort := st.nextPort + 1 })
  portsDelete := fun id st =>
    if st.ports.any (fun p => p.ID == id) then
      (none,
        { st with
          ports := st.ports.filter (fun p => p.ID != id)
          floatingIPs := st.floatingIPs.map
            (fun fp => if fp.PortID == id then { fp with PortID := "" } else fp) })
    else (some "port not found", st)
  checkIfFloatingIPExists := fun ip st => (.ok (checkIfFloatingIPExists st.floatingIPs ip), st)
  floatingipsCreate := fun opts st =>
    if opts.FloatingIP = "" then
      let fp : floatingips.FloatingIP :=
        { ID := "F" ++ toString st.nextFloatingIP
          FloatingNetworkID := opts.FloatingNetworkID
          FloatingIP := "198.51.100." ++ toString st.nextFloatingIP
          PortID := "" }
      (.ok fp,
        { st with
          floatingIPs := st.floatingIPs ++ [fp], nextFloatingIP := st.nextFloatingIP + 1 })
    else if st.floatingIPs.any (fun fp => fp.FloatingIP == opts.FloatingIP) then
      (.error "floating IP address already in use", st)
    else
      let fp : floatingips.FloatingIP :=
        { ID := "F" ++ toString st.nextFloatingIP
          FloatingNetworkID := opts.FloatingNetworkID
          FloatingIP := opts.FloatingIP
          PortID := "" }
      (.ok fp,
        { st with
          floatingIPs := st.floatingIPs ++ [fp], nextFloatingIP := st.nextFloatingIP + 1 })
  floatingipsUpdate := fun id opts st =>
    match st.floatingIPs.find? (fun fp => fp.ID == id) with
    | none => (.error "floating IP not found", st)
    | some fp =>
      (.ok (MemStore.associate id opts fp),
        { st with floatingIPs := st.floatingIPs.map (MemStore.associate id opts) })

/-- The in-memory store with nothing in it; its first port is `P1`, its first
floating IP `F1`. -/
def MemStore.empty : MemStore where
  ports := []
  floatingIPs := []
  nextPort := 1
  nextFloatingIP := 1

/-! ## Requests, records and inputs named in the theorems -/

/-- The request `ReconcileVIPPort` sends to create the VIP port (the literal
`options` of the source). -/
abbrev portOptions (networkPrefix clusterName : String)
    (openStackCluster : infrav1.OpenStackCluster) (network : infrav1.Network)
    (subnet : infrav1.Subnet) : ports.CreateOpts :=
  { Name := portName networkPrefix clusterName
    NetworkID := network.ID
    FixedIPs := [{ SubnetID := subnet.ID
                   IPAddress := openStackCluster.Spec.ControlPlaneInternalIP }] }

/-- The request `ReconcileVIPPort` sends to create the floating IP (the literal
`fpCreateOpts` of the source). -/
abbrev floatingIPOptions (openStackCluster : infrav1.OpenStackCluster) :
    floatingips.CreateOpts :=
  { FloatingIP := openStackCluster.Spec.APIServerLoadBalancerFloatingIP
    FloatingNetworkID := openStackCluster.Spec.ExternalNetworkID }

/-- The status record of a cluster object, when it has one. -/
abbrev statusRecord (openStackCluster : infrav1.OpenStackCluster) :
    Option infrav1.UnmanagedPort :=
  openStackCluster.Status.Network.bind (fun network => network.UnmanagedPort)

/-- The store of the atomic-failure probe: no port, no floating IP, every
request succeeds but the association update. -/
def updateFails : Service Unit (List ports.Port) :=
  scripted (.ok []) (.ok demoPort) none (.ok none) (.ok (demoFloatingIP ""))
    (.error "conflict")

/-- The cluster of the scenario without an external network. -/
def noExternalNetwork : infrav1.OpenStackCluster :=
  { demoCluster with Spec := { demoCluster.Spec with ExternalNetworkID := "" } }

/-- A store whose port listing fails. -/
def listFails : Service Unit (List ports.Port) :=
  scripted (.error "connection refused") (.ok demoPort) none (.ok none)
    (.ok (demoFloatingIP "")) (.ok (demoFloatingIP "P1"))

/-- A store with no port of the name whose port create fails. -/
def createFails : Service Unit (List ports.Port) :=
  scripted (.ok []) (.error "quota exceeded") none (.ok none)
    (.ok (demoFloatingIP "")) (.ok (demoFloatingIP "P1"))

/-- A store with no floating IP at the address whose floating-IP create
fails. -/
def floatingIPCreateFails : Service Unit (List ports.Port) :=
  scripted (.ok []) (.ok demoPort) none (.ok none)
    (.error "address unavailable") (.ok (demoFloatingIP "P1"))

/-- A store whose floating-IP lookup fails. -/
def lookupFails : Service Unit (List ports.Port) :=
  scripted (.ok []) (.ok demoPort) none (.error "gateway timeout")
    (.ok (demoFloatingIP "")) (.ok (demoFloatingIP "P1"))

/-- A store that names the created port `vip` instead of the requested
name; every request succeeds. -/
def renames : Service Unit (List ports.Port) :=
  scripted (.ok []) (.ok { demoPort with Name := "vip" }) none (.ok none)
    (.ok (demoFloatingIP "")) (.ok (demoFloatingIP "P1"))

/-- The in-memory store holding two ports of the VIP port's name, `PA` listed
before `PB`, and the floating IP `F7` at the desired address, associated with
another port. -/
def ambiguous : MemStore where
  ports :=
    [{ ID := "PA", NetworkID := "net-1", Name := "openstack-cluster-demo", FixedIPs := [] },
     { ID := "PB", NetworkID := "net-1", Name := "openstack-cluster-demo", FixedIPs := [] }]
  floatingIPs :=
    [{ ID := "F7", FloatingNetworkID := "ext-net", FloatingIP := "203.0.113.10",
       PortID := "other-port" }]
  nextPort := 1
  nextFloatingIP := 8

/-- The in-memory store holding the port `P1` and no floating IP. -/
def onePort : MemStore where
  ports := [demoPort]
  floatingIPs := []
  nextPort := 2
  nextFloatingIP := 1

/-- The cluster of the scenario with the floating-IP address left to the
provider. -/
def providerAssigned : infrav1.OpenStackCluster :=
  { demoCluster with
    Spec := { demoCluster.Spec with APIServerLoadBalancerFloatingIP := "" } }

/-! ## Theorems -/



/-- Past the two guards and a port listing that was answered and decoded,
`ReconcileVIPPort` is its port `if`/`else` followed by the floating-IP part. -/
theorem ReconcileVIPPort_of_listed {σ π : Type} (s : Service σ π)
    (networkPrefix clusterName : String) (openStackCluster : infrav1.OpenStackCluster)
    (st : σ) (network : infrav1.Network) (subnet : infrav1.Subnet)
    (hnet : openStackCluster.Status.Network = some network)
    (hsub : network.Subnet = some subnet) (hid : subnet.ID ≠ "")
    (hext : openStackCluster.Spec.ExternalNetworkID ≠ "")
    (allPages : π) (st1 : σ) (portsList : List ports.Port)
    (hlist : s.portsList { Name := portName networkPrefix clusterName } st
      = (.ok allPages, st1))
    (hex : s.ExtractPorts allPages = .ok portsList) :
    ReconcileVIPPort s networkPrefix clusterName openStackCluster st
      = match portsList with
        | [] =>
          match s.portsCreate
            (portOptions networkPrefix clusterName openStackCluster network subnet) st1 with
          | (.error err, st2) =>
            ⟨some ("error allocating VIP port: " ++ err), openStackCluster, st2,
              [Call.portsList { Name := portName networkPrefix clusterName },
                Call.portsCreate
                  (portOptions networkPrefix clusterName openStackCluster network subnet)]⟩
          | (.ok newPort, st2) =>
            ReconcileVIPPort.floatingIP s openStackCluster network newPort st2
              [Call.portsList { Name := portName networkPrefix clusterName },
                Call.portsCreate
                  (portOptions networkPrefix clusterName openStackCluster network subnet)]
        | port :: _ =>
          ReconcileVIPPort.floatingIP s openStackCluster network port st1
            [Call.portsList { Name := portName networkPrefix clusterName }] := by
  unfold ReconcileVIPPort
  simp only [hnet, hsub, hid, hext, hlist, hex, if_false]
  cases portsList <;> rfl

/-- Once the port is resolved: the port returned by the create request when
the listing was empty, the first listed port otherwise. `st2` is the store the
port part leaves. -/
theorem ReconcileVIPPort_of_resolved {σ π : Type} (s : Service σ π)
    (networkPrefix clusterName : String) (openStackCluster : infrav1.OpenStackCluster)
    (st : σ) (network : infrav1.Network) (subnet : infrav1.Subnet)
    (hnet : openStackCluster.Status.Network = some network)
    (hsub : network.Subnet = some subnet) (hid : subnet.ID ≠ "")
    (hext : openStackCluster.Spec.ExternalNetworkID ≠ "")
    (allPages : π) (st1 : σ) (portsList : List ports.Port)
    (hlist : s.portsList { Name := portName networkPrefix clusterName } st
      = (.ok allPages, st1))
    (hex : s.ExtractPorts allPages = .ok portsList)
    (port : ports.Port) (st2 : σ)
    (hport : (portsList = [] ∧ s.portsCreate
          (portOptions networkPrefix clusterName openStackCluster network subnet) st1
          = (.ok port, st2))
      ∨ (portsList.head? = some port ∧ st2 = st1)) :
    ReconcileVIPPort s networkPrefix clusterName openStackCluster st
      = ReconcileVIPPort.floatingIP s openStackCluster network port st2
          ([Call.portsList { Name := portName networkPrefix clusterName }]
            ++ if portsList.isEmpty then
                [Call.portsCreate
                  (portOptions networkPrefix clusterName openStackCluster network subnet)]
              else []) := by
  rw [ReconcileVIPPort_of_listed s networkPrefix clusterName openStackCluster st network subnet
    hnet hsub hid hext allPages st1 portsList hlist hex]
  rcases hport with ⟨hnil, hcreate⟩ | ⟨hhead, hst⟩
  · subst hnil
    simp only [hcreate]
    rfl
  · subst hst
    cases portsList with
    | nil => cases hhead
    | cons p rest =>
      simp only [List.head?_cons, Option.some.injEq] at hhead
      subst hhead
      rfl

/-- The floating-IP part of `ReconcileVIPPort` leaves the cluster object as it
was whenever it returns an error. -/
theorem floatingIP_cluster_of_err {σ π : Type} (s : Service σ π)
    (openStackCluster : infrav1.OpenStackCluster) (network : infrav1.Network)
    (port : ports.Port) (st : σ) (calls : List Call)
    (h : (ReconcileVIPPort.floatingIP s openStackCluster network port st calls).err ≠ none) :
    (ReconcileVIPPort.floatingIP s openStackCluster network port st calls).cluster
      = openStackCluster := by
  revert h
  unfold ReconcileVIPPort.floatingIP
  dsimp only
  split
  · intro _; rfl
  · split
    · split
      · intro _; rfl
      · split
        · intro _; rfl
        · intro h; exact absurd rfl h
    · split
      · intro _; rfl
      · intro h; exact absurd rfl h

/-- C1. Whenever `ReconcileVIPPort` returns an error, at whatever step, the
cluster object (its status included, so `Status.Network.UnmanagedPort` too) is
what it was before the call: the status record is written on the error-free
path only. -/
theorem ReconcileVIPPort_error_leaves_cluster {σ π : Type} (s : Service σ π)
    (networkPrefix clusterName : String) (openStackCluster : infrav1.OpenStackCluster)
    (st : σ)
    (h : (ReconcileVIPPort s networkPrefix clusterName openStackCluster st).err ≠ none) :
    (ReconcileVIPPort s networkPrefix clusterName openStackCluster st).cluster
        = openStackCluster
      ∧ (ReconcileVIPPort s networkPrefix clusterName openStackCluster st).cluster.Status
        = openStackCluster.Status := by
  have key : (ReconcileVIPPort s networkPrefix clusterName openStackCluster st).cluster
      = openStackCluster := by
    revert h
    unfold ReconcileVIPPort
    split
    · intro _; rfl
    · split
      · intro _; rfl
      · split
        · intro _; rfl
        · split
          · intro _; rfl
          · dsimp only
            split
            · intro _; rfl
            · split
              · intro _; rfl
              · split
                · split
                  · intro _; rfl
                  · exact floatingIP_cluster_of_err s _ _ _ _ _
                · exact floatingIP_cluster_of_err s _ _ _ _ _
  exact ⟨key, by rw [key]⟩

/-- Witness of C1: the association update fails after the floating IP was
created; an error is returned and the cluster object is untouched. -/
theorem ReconcileVIPPort_error_leaves_cluster_witness :
    (ReconcileVIPPort updateFails "openstack" "demo" demoCluster ()).err
        = some "error allocating floating IP: conflict"
      ∧ (ReconcileVIPPort updateFails "openstack" "demo" demoCluster ()).calls.length = 5
      ∧ (ReconcileVIPPort updateFails "openstack" "demo" demoCluster ()).cluster = demoCluster
      ∧ (ReconcileVIPPort updateFails "openstack" "demo" demoCluster ()).cluster.Status
          = demoCluster.Status :=
  ⟨by decide, by decide,
    ReconcileVIPPort_error_leaves_cluster updateFails "openstack" "demo" demoCluster ()
      (by decide)⟩

/-- C2. When the subnet is absent (`Status.Network` nil, `Subnet` nil or
`Subnet.ID` empty) or `Spec.ExternalNetworkID` is empty, `ReconcileVIPPort`
returns no error, sends no request to the store, and leaves the cluster object
and the store as they were. -/
theorem ReconcileVIPPort_skips {σ π : Type} (s : Service σ π)
    (networkPrefix clusterName : String) (openStackCluster : infrav1.OpenStackCluster)
    (st : σ)
    (h : openStackCluster.Status.Network = none
      ∨ (∃ network, openStackCluster.Status.Network = some network ∧ network.Subnet = none)
      ∨ (∃ network subnet, openStackCluster.Status.Network = some network
          ∧ network.Subnet = some subnet ∧ subnet.ID = "")
      ∨ openStackCluster.Spec.ExternalNetworkID = "") :
    (ReconcileVIPPort s networkPrefix clusterName openStackCluster st).err = none
      ∧ (ReconcileVIPPort s networkPrefix clusterName openStackCluster st).calls = []
      ∧ (ReconcileVIPPort s networkPrefix clusterName openStackCluster st).cluster
          = openStackCluster
      ∧ (ReconcileVIPPort s networkPrefix clusterName openStackCluster st).store = st := by
  unfold ReconcileVIPPort
  split
  · exact ⟨rfl, rfl, rfl, rfl⟩
  · next network hnet =>
    split
    · exact ⟨rfl, rfl, rfl, rfl⟩
    · next subnet hsub =>
      split
      · exact ⟨rfl, rfl, rfl, rfl⟩
      · next hid =>
        split
        · exact ⟨rfl, rfl, rfl, rfl⟩
        · next hext =>
          exfalso
          rcases h with h | ⟨n, hn, h⟩ | ⟨n, sub, hn, hs, h⟩ | h
          · rw [hnet] at h; cases h
          · rw [hnet] at hn; cases hn; rw [hsub] at h; cases h
          · rw [hnet] at hn; cases hn; rw [hsub] at hs; cases hs; exact hid h
          · exact hext h

/-- Witness of C2: with an empty external network identifier nothing is
requested from a store that would answer every request. -/
theorem ReconcileVIPPort_skips_witness :
    noExternalNetwork.Spec.ExternalNetworkID = ""
      ∧ (ReconcileVIPPort updateFails "openstack" "demo" noExternalNetwork ()).err = none
      ∧ (ReconcileVIPPort updateFails "openstack" "demo" noExternalNetwork ()).calls = []
      ∧ (ReconcileVIPPort updateFails "openstack" "demo" noExternalNetwork ()).cluster
          = noExternalNetwork
      ∧ (ReconcileVIPPort updateFails "openstack" "demo" noExternalNetwork ()).store = () :=
  ⟨rfl, ReconcileVIPPort_skips updateFails "openstack" "demo" noExternalNetwork ()
    (Or.inr (Or.inr (Or.inr rfl)))⟩

/-- C6. With no record (a nil `UnmanagedPort`), `DeleteVIPPort` sends no
request to the store, leaves the store as it was and returns no error. -/
theorem DeleteVIPPort_nil {σ π : Type} (s : Service σ π) (st : σ) :
    (DeleteVIPPort s none st).calls = []
      ∧ (DeleteVIPPort s none st).err = none
      ∧ (DeleteVIPPort s none st).store = st :=
  ⟨rfl, rfl, rfl⟩

/-- C7. With a record, `DeleteVIPPort` sends exactly one request, a port
delete for the record's ID, and none about floating IPs; it returns an error
exactly when that delete fails, and the error is then the store's error
behind the context `error while deleting port: `. -/
theorem DeleteVIPPort_record {σ π : Type} (s : Service σ π)
    (unmanagedPort : infrav1.UnmanagedPort) (st : σ) :
    (DeleteVIPPort s (some unmanagedPort) st).calls = [Call.portsDelete unmanagedPort.ID]
      ∧ (∀ c ∈ (DeleteVIPPort s (some unmanagedPort) st).calls, c.isFloatingIP = false)
      ∧ ((DeleteVIPPort s (some unmanagedPort) st).err = none
          ↔ (s.portsDelete unmanagedPort.ID st).1 = none)
      ∧ (DeleteVIPPort s (some unmanagedPort) st).err
          = (s.portsDelete unmanagedPort.ID st).1.map
              (fun err => "error while deleting port: " ++ err)
      ∧ (DeleteVIPPort s (some unmanagedPort) st).store
          = (s.portsDelete unmanagedPort.ID st).2 := by
  unfold DeleteVIPPort
  dsimp only
  split
  · next err st1 hdel =>
    rw [hdel]
    refine ⟨rfl, ?_, ?_, rfl, rfl⟩
    · intro c hc
      rw [List.mem_singleton] at hc
      rw [hc]; rfl
    · constructor <;> intro h <;> cases h
  · next st1 hdel =>
    rw [hdel]
    refine ⟨rfl, ?_, ?_, rfl, rfl⟩
    · intro c hc
      rw [List.mem_singleton] at hc
      rw [hc]; rfl
    · exact ⟨fun _ => rfl, fun _ => rfl⟩

/-- C8, as the code has it. Every store error aborts the run at the failing
request: no request follows it, the store is left as that request left it and
the cluster object is untouched. An error of the port listing (or of decoding
its pages) and an error of the floating-IP lookup are returned unchanged. An
error `e` of the port create is returned as a new error whose message is `e`
behind `error allocating VIP port: `; an error `e` of the floating-IP create
or of the association update as a new error whose message is `e` behind
`error allocating floating IP: `. -/
theorem ReconcileVIPPort_store_error {σ π : Type} (s : Service σ π)
    (networkPrefix clusterName : String) (openStackCluster : infrav1.OpenStackCluster)
    (st : σ) (network : infrav1.Network) (subnet : infrav1.Subnet)
    (hnet : openStackCluster.Status.Network = some network)
    (hsub : network.Subnet = some subnet) (hid : subnet.ID ≠ "")
    (hext : openStackCluster.Spec.ExternalNetworkID ≠ "") (e : Error) :
    (∀ st1, s.portsList { Name := portName networkPrefix clusterName } st = (.error e, st1) →
        ReconcileVIPPort s networkPrefix clusterName openStackCluster st
          = ⟨some e, openStackCluster, st1,
              [Call.portsList { Name := portName networkPrefix clusterName }]⟩)
      ∧ (∀ allPages st1,
          s.portsList { Name := portName networkPrefix clusterName } st = (.ok allPages, st1) →
          s.ExtractPorts allPages = .error e →
          ReconcileVIPPort s networkPrefix clusterName openStackCluster st
            = ⟨some e, openStackCluster, st1,
                [Call.portsList { Name := portName networkPrefix clusterName }]⟩)
      ∧ (∀ allPages st1 st2,
          s.portsList { Name := portName networkPrefix clusterName } st = (.ok allPages, st1) →
          s.ExtractPorts allPages = .ok [] →
          s.portsCreate (portOptions networkPrefix clusterName openStackCluster network subnet)
            st1 = (.error e, st2) →
          ReconcileVIPPort s networkPrefix clusterName openStackCluster st
            = ⟨some ("error allocating VIP port: " ++ e), openStackCluster, st2,
                [Call.portsList { Name := portName networkPrefix clusterName },
                  Call.portsCreate
                    (portOptions networkPrefix clusterName openStackCluster network subnet)]⟩)
      ∧ (∀ allPages st1 portsList port st2 st3 st4,
          s.portsList { Name := portName networkPrefix clusterName } st = (.ok allPages, st1) →
          s.ExtractPorts allPages = .ok portsList →
          ((portsList = [] ∧ s.portsCreate
                (portOptions networkPrefix clusterName openStackCluster network subnet) st1
                = (.ok port, st2))
            ∨ (portsList.head? = some port ∧ st2 = st1)) →
          s.checkIfFloatingIPExists openStackCluster.Spec.APIServerLoadBalancerFloatingIP st2
            = (.ok none, st3) →
          s.floatingipsCreate (floatingIPOptions openStackCluster) st3 = (.error e, st4) →
          ReconcileVIPPort s networkPrefix clusterName openStackCluster st
            = ⟨some ("error allocating floating IP: " ++ e), openStackCluster, st4,
                [Call.portsList { Name := portName networkPrefix clusterName }]
                  ++ (if portsList.isEmpty then
                        [Call.portsCreate
                          (portOptions networkPrefix clusterName openStackCluster network
                            subnet)]
                      else [])
                  ++ [Call.checkIfFloatingIPExists
                        openStackCluster.Spec.APIServerLoadBalancerFloatingIP,
                      Call.floatingipsCreate (floatingIPOptions openStackCluster)]⟩)
      ∧ (∀ allPages st1 portsList port st2 st3,
          s.portsList { Name := portName networkPrefix clusterName } st = (.ok allPages, st1) →
          s.ExtractPorts allPages = .ok portsList →
          ((portsList = [] ∧ s.portsCreate
                (portOptions networkPrefix clusterName openStackCluster network subnet) st1
                = (.ok port, st2))
            ∨ (portsList.head? = some port ∧ st2 = st1)) →
          s.checkIfFloatingIPExists openStackCluster.Spec.APIServerLoadBalancerFloatingIP st2
            = (.error e, st3) →
          ReconcileVIPPort s networkPrefix clusterName openStackCluster st
            = ⟨some e, openStackCluster, st3,
                [Call.portsList { Name := portName networkPrefix clusterName }]
                  ++ (if portsList.isEmpty then
                        [Call.portsCreate
                          (portOptions networkPrefix clusterName openStackCluster network
                            subnet)]
                      else [])
                  ++ [Call.checkIfFloatingIPExists
                        openStackCluster.Spec.APIServerLoadBalancerFloatingIP]⟩)
      ∧ (∀ allPages st1 portsList port st2 found st3 fp st4 st5,
          s.portsList { Name := portName networkPrefix clusterName } st = (.ok allPages, st1) →
          s.ExtractPorts allPages = .ok portsList →
          ((portsList = [] ∧ s.portsCreate
                (portOptions networkPrefix clusterName openStackCluster network subnet) st1
                = (.ok port, st2))
            ∨ (portsList.head? = some port ∧ st2 = st1)) →
          s.checkIfFloatingIPExists openStackCluster.Spec.APIServerLoadBalancerFloatingIP st2
            = (.ok found, st3) →
          ((found = none
              ∧ s.floatingipsCreate (floatingIPOptions openStackCluster) st3 = (.ok fp, st4))
            ∨ (found = some fp ∧ st4 = st3)) →
          s.floatingipsUpdate fp.ID { PortID := some port.ID } st4 = (.error e, st5) →
          ReconcileVIPPort s networkPrefix clusterName openStackCluster st
            = ⟨some ("error allocating floating IP: " ++ e), openStackCluster, st5,
                [Call.portsList { Name := portName networkPrefix clusterName }]
                  ++ (if portsList.isEmpty then
                        [Call.portsCreate
                          (portOptions networkPrefix clusterName openStackCluster network
                            subnet)]
                      else [])
                  ++ [Call.checkIfFloatingIPExists
                        openStackCluster.Spec.APIServerLoadBalancerFloatingIP]
                  ++ (if found.isNone then
                        [Call.floatingipsCreate (floatingIPOptions openStackCluster)]
                      else [])
                  ++ [Call.floatingipsUpdate fp.ID { PortID := some port.ID }]⟩) := by
  refine ⟨?_, ?_, ?_, ?_, ?_, ?_⟩
  · intro st1 hlist
    simp [ReconcileVIPPort, hnet, hsub, hid, hext, hlist]
  · intro allPages st1 hlist hex
    simp [ReconcileVIPPort, hnet, hsub, hid, hext, hlist, hex]
  · intro allPages st1 st2 hlist hex hcreate
    simp [ReconcileVIPPort, hnet, hsub, hid, hext, hlist, hex, hcreate]
  · intro allPages st1 portsList port st2 st3 st4 hlist hex hport hcheck hcreate
    rcases hport with ⟨rfl, hport⟩ | ⟨hhead, rfl⟩
    · simp [ReconcileVIPPort, ReconcileVIPPort.floatingIP, hnet, hsub, hid, hext, hlist, hex,
        hport, hcheck, hcreate]
    · cases portsList with
      | nil => cases hhead
      | cons first rest =>
        simp only [List.head?_cons, Option.some.injEq] at hhead
        subst hhead
        simp [ReconcileVIPPort, ReconcileVIPPort.floatingIP, hnet, hsub, hid, hext, hlist,
          hex, hcheck, hcreate]
  · intro allPages st1 portsList port st2 st3 hlist hex hport hcheck
    rcases hport with ⟨rfl, hport⟩ | ⟨hhead, rfl⟩
    · simp [ReconcileVIPPort, ReconcileVIPPort.floatingIP, hnet, hsub, hid, hext, hlist, hex,
        hport, hcheck]
    · cases portsList with
      | nil => cases hhead
      | cons first rest =>
        simp only [List.head?_cons, Option.some.injEq] at hhead
        subst hhead
        simp [ReconcileVIPPort, ReconcileVIPPort.floatingIP, hnet, hsub, hid, hext, hlist,
          hex, hcheck]
  · intro allPages st1 portsList port st2 found st3 fp st4 st5 hlist hex hport hcheck hfp
      hupdate
    rcases hport with ⟨rfl, hport⟩ | ⟨hhead, rfl⟩
    · rcases hfp with ⟨rfl, hfc⟩ | ⟨rfl, rfl⟩ <;>
        simp [ReconcileVIPPort, ReconcileVIPPort.floatingIP, hnet, hsub, hid, hext, hlist,
          hex, hport, hcheck, hupdate, *]
    · cases portsList with
      | nil => cases hhead
      | cons first rest =>
        simp only [List.head?_cons, Option.some.injEq] at hhead
        subst hhead
        rcases hfp with ⟨rfl, hfc⟩ | ⟨rfl, rfl⟩ <;>
          simp [ReconcileVIPPort, ReconcileVIPPort.floatingIP, hnet, hsub, hid, hext, hlist,
            hex, hcheck, hupdate, *]

/-- Counterexample to C8 as stated: the port create fails with
`quota exceeded`, and the error `ReconcileVIPPort` returns is not that error
but `error allocating VIP port: quota exceeded`. -/
theorem ReconcileVIPPort_create_error_reworded :
    (createFails.portsCreate (portOptions "openstack" "demo" demoCluster
        demoNetwork demoSubnet) ()).1
        = .error "quota exceeded"
      ∧ (ReconcileVIPPort createFails "openstack" "demo" demoCluster ()).err
          ≠ some "quota exceeded"
      ∧ (ReconcileVIPPort createFails "openstack" "demo" demoCluster ()).err
          = some "error allocating VIP port: quota exceeded" :=
  ⟨rfl, by decide, by decide⟩

/-- Witness of C8: the five failing stores, at the scenario's cluster. -/
theorem ReconcileVIPPort_store_error_witness :
    ReconcileVIPPort listFails "openstack" "demo" demoCluster ()
        = ⟨some "connection refused", demoCluster, (),
            [Call.portsList { Name := "openstack-cluster-demo" }]⟩
      ∧ ReconcileVIPPort createFails "openstack" "demo" demoCluster ()
        = ⟨some "error allocating VIP port: quota exceeded", demoCluster, (),
            [Call.portsList { Name := "openstack-cluster-demo" },
              Call.portsCreate
                { Name := "openstack-cluster-demo", NetworkID := "net-1",
                  FixedIPs := [{ SubnetID := "sub-1", IPAddress := "10.0.0.5" }] }]⟩
      ∧ ReconcileVIPPort floatingIPCreateFails "openstack" "demo" demoCluster ()
        = ⟨some "error allocating floating IP: address unavailable", demoCluster, (),
            [Call.portsList { Name := "openstack-cluster-demo" },
              Call.portsCreate
                { Name := "openstack-cluster-demo", NetworkID := "net-1",
                  FixedIPs := [{ SubnetID := "sub-1", IPAddress := "10.0.0.5" }] },
              Call.checkIfFloatingIPExists "203.0.113.10",
              Call.floatingipsCreate
                { FloatingIP := "203.0.113.10", FloatingNetworkID := "ext-net" }]⟩
      ∧ ReconcileVIPPort lookupFails "openstack" "demo" demoCluster ()
        = ⟨some "gateway timeout", demoCluster, (),
            [Call.portsList { Name := "openstack-cluster-demo" },
              Call.portsCreate
                { Name := "openstack-cluster-demo", NetworkID := "net-1",
                  FixedIPs := [{ SubnetID := "sub-1", IPAddress := "10.0.0.5" }] },
              Call.checkIfFloatingIPExists "203.0.113.10"]⟩
      ∧ ReconcileVIPPort updateFails "openstack" "demo" demoCluster ()
        = ⟨some "error allocating floating IP: conflict", demoCluster, (),
            [Call.portsList { Name := "openstack-cluster-demo" },
              Call.portsCreate
                { Name := "openstack-cluster-demo", NetworkID := "net-1",
                  FixedIPs := [{ SubnetID := "sub-1", IPAddress := "10.0.0.5" }] },
              Call.checkIfFloatingIPExists "203.0.113.10",
              Call.floatingipsCreate
                { FloatingIP := "203.0.113.10", FloatingNetworkID := "ext-net" },
              Call.floatingipsUpdate "F1" { PortID := some "P1" }]⟩
      ∧ (ReconcileVIPPort listFails "openstack" "demo" demoCluster ()).err
          = some "connection refused"
      ∧ (ReconcileVIPPort createFails "openstack" "demo" demoCluster ()).err
          = some "error allocating VIP port: quota exceeded"
      ∧ (ReconcileVIPPort floatingIPCreateFails "openstack" "demo" demoCluster ()).err
          = some "error allocating floating IP: address unavailable"
      ∧ (ReconcileVIPPort lookupFails "openstack" "demo" demoCluster ()).err
          = some "gateway timeout"
      ∧ (ReconcileVIPPort lookupFails "openstack" "demo" demoCluster ()).calls.length = 3
      ∧ (ReconcileVIPPort updateFails "openstack" "demo" demoCluster ()).err
          = some "error allocating floating IP: conflict"
      ∧ (ReconcileVIPPort updateFails "openstack" "demo" demoCluster ()).calls.length = 5 :=
  ⟨(ReconcileVIPPort_store_error listFails "openstack" "demo" demoCluster () _ _ rfl rfl
      (by decide) (by decide) "connection refused").1 () rfl,
    (ReconcileVIPPort_store_error createFails "openstack" "demo" demoCluster () _ _ rfl rfl
      (by decide) (by decide) "quota exceeded").2.2.1 [] () () rfl rfl rfl,
    (ReconcileVIPPort_store_error floatingIPCreateFails "openstack" "demo" demoCluster () _ _
      rfl rfl (by decide) (by decide) "address unavailable").2.2.2.1 [] () [] demoPort () () ()
      rfl rfl (Or.inl ⟨rfl, rfl⟩) rfl rfl,
    (ReconcileVIPPort_store_error lookupFails "openstack" "demo" demoCluster () _ _
      rfl rfl (by decide) (by decide) "gateway timeout").2.2.2.2.1 [] () [] demoPort () ()
      rfl rfl (Or.inl ⟨rfl, rfl⟩) rfl,
    (ReconcileVIPPort_store_error updateFails "openstack" "demo" demoCluster () _ _
      rfl rfl (by decide) (by decide) "conflict").2.2.2.2.2 [] () [] demoPort () none ()
      (demoFloatingIP "") () () rfl rfl (Or.inl ⟨rfl, rfl⟩) rfl (Or.inl ⟨rfl, rfl⟩) rfl,
    by decide, by decide, by decide, by decide, by decide, by decide, by decide⟩

/-- What the floating-IP part adds to the requests sent so far: a lookup,
possibly a floating-IP create, possibly an update whose port reference is
`port.ID`; never a port request. -/
theorem floatingIP_calls {σ π : Type} (s : Service σ π)
    (openStackCluster : infrav1.OpenStackCluster) (network : infrav1.Network)
    (port : ports.Port) (st : σ) (calls : List Call) :
    ∃ tail, (ReconcileVIPPort.floatingIP s openStackCluster network port st calls).calls
        = calls ++ tail
      ∧ ∀ c ∈ tail,
          c = Call.checkIfFloatingIPExists openStackCluster.Spec.APIServerLoadBalancerFloatingIP
          ∨ c = Call.floatingipsCreate (floatingIPOptions openStackCluster)
          ∨ ∃ id, c = Call.floatingipsUpdate id { PortID := some port.ID } := by
  unfold ReconcileVIPPort.floatingIP
  dsimp only
  split
  · exact ⟨_, rfl, by simp⟩
  · split
    · split
      · exact ⟨_, by simp only [List.append_assoc]; rfl, by simp⟩
      · split
        · exact ⟨_, by simp only [List.append_assoc]; rfl, by simp⟩
        · exact ⟨_, by simp only [List.append_assoc]; rfl, by simp⟩
    · split
      · exact ⟨_, by simp only [List.append_assoc]; rfl, by simp⟩
      · exact ⟨_, by simp only [List.append_assoc]; rfl, by simp⟩

/-- The cluster object the floating-IP part leaves: the one it was given when
it returns an error, and otherwise that one with the status record set to the
name and ID of `port` and the address of the updated floating IP. -/
theorem floatingIP_cluster {σ π : Type} (s : Service σ π)
    (openStackCluster : infrav1.OpenStackCluster) (network : infrav1.Network)
    (port : ports.Port) (st : σ) (calls : List Call) :
    ((ReconcileVIPPort.floatingIP s openStackCluster network port st calls).err ≠ none
        ∧ (ReconcileVIPPort.floatingIP s openStackCluster network port st calls).cluster
          = openStackCluster)
      ∨ ((ReconcileVIPPort.floatingIP s openStackCluster network port st calls).err = none
        ∧ ∃ ip, (ReconcileVIPPort.floatingIP s openStackCluster network port st calls).cluster
          = { openStackCluster with
              Status :=
                { Ready := openStackCluster.Status.Ready
                  Network := some
                    { network with
                      UnmanagedPort := some
                        { Name := port.Name, ID := port.ID, IP := ip } } } }) := by
  unfold ReconcileVIPPort.floatingIP
  dsimp only
  split
  · exact Or.inl ⟨by simp, rfl⟩
  · split
    · split
      · exact Or.inl ⟨by simp, rfl⟩
      · split
        · exact Or.inl ⟨by simp, rfl⟩
        · exact Or.inr ⟨rfl, _, rfl⟩
    · split
      · exact Or.inl ⟨by simp, rfl⟩
      · exact Or.inr ⟨rfl, _, rfl⟩

/-- A run whose port part resolved `port` sends only updates that refer to
`port`, and on success writes the name and ID of `port` to the status
record. -/
theorem floatingIP_uses {σ π : Type} (s : Service σ π)
    (openStackCluster : infrav1.OpenStackCluster) (network : infrav1.Network)
    (port : ports.Port) (st : σ) (calls : List Call)
    (hcalls : ∀ c ∈ calls, c.isFloatingipsUpdate = false) :
    (∀ id opts, Call.floatingipsUpdate id opts
        ∈ (ReconcileVIPPort.floatingIP s openStackCluster network port st calls).calls →
        opts.PortID = some port.ID)
      ∧ ((ReconcileVIPPort.floatingIP s openStackCluster network port st calls).err = none →
        ∃ ip, statusRecord
            (ReconcileVIPPort.floatingIP s openStackCluster network port st calls).cluster
          = some { Name := port.Name, ID := port.ID, IP := ip })
      ∧ (ReconcileVIPPort.floatingIP s openStackCluster network port st calls).calls.filter
          Call.isPortsCreate = calls.filter Call.isPortsCreate := by
  obtain ⟨tail, htail, hmem⟩ := floatingIP_calls s openStackCluster network port st calls
  refine ⟨?_, ?_, ?_⟩
  · intro id opts hin
    rw [htail, List.mem_append] at hin
    rcases hin with hin | hin
    · have := hcalls _ hin
      simp [Call.isFloatingipsUpdate] at this
    · rcases hmem _ hin with h | h | ⟨id1, h⟩
      · cases h
      · cases h
      · cases h; rfl
  · intro herr
    rcases floatingIP_cluster s openStackCluster network port st calls with ⟨h, _⟩ | ⟨_, ip, h⟩
    · exact absurd herr h
    · exact ⟨ip, by rw [h]; rfl⟩
  · rw [htail, List.filter_append]
    have : tail.filter Call.isPortsCreate = [] := by
      rw [List.filter_eq_nil_iff]
      intro c hc
      rcases hmem c hc with h | h | ⟨id1, h⟩ <;> subst h <;> simp [Call.isPortsCreate]
    rw [this, List.append_nil]

/-- C9. Port resolution by the number of ports the listing by name returns.
With none, exactly one port create is sent, carrying the name
(`networkPrefix`, `-cluster-`, the cluster name), the cluster's network ID and
the single fixed IP (subnet ID, control-plane internal IP), and the created
port is used. With one or more, no port create is sent and the
first listed port is used, whatever follows it in the list. A port is used
when every association update refers to its ID, the status record written on
success carries its name and ID, and, once the floating IP is found or
created, the association update with that port's ID is made on the store and
decides the outcome: the record with the port's name and ID on success. -/
theorem ReconcileVIPPort_port_resolution {σ π : Type} (s : Service σ π)
    (networkPrefix clusterName : String) (openStackCluster : infrav1.OpenStackCluster)
    (st : σ) (network : infrav1.Network) (subnet : infrav1.Subnet)
    (hnet : openStackCluster.Status.Network = some network)
    (hsub : network.Subnet = some subnet) (hid : subnet.ID ≠ "")
    (hext : openStackCluster.Spec.ExternalNetworkID ≠ "")
    (allPages : π) (st1 : σ) (portsList : List ports.Port)
    (hlist : s.portsList { Name := portName networkPrefix clusterName } st
      = (.ok allPages, st1))
    (hex : s.ExtractPorts allPages = .ok portsList) :
    (portsList = [] →
        (ReconcileVIPPort s networkPrefix clusterName openStackCluster st).calls.filter
            Call.isPortsCreate
          = [Call.portsCreate
              { Name := networkPrefix ++ "-cluster-" ++ clusterName
                NetworkID := network.ID
                FixedIPs := [{ SubnetID := subnet.ID
                               IPAddress := openStackCluster.Spec.ControlPlaneInternalIP }] }]
        ∧ ∀ port st2,
            s.portsCreate (portOptions networkPrefix clusterName openStackCluster network subnet)
              st1 = (.ok port, st2) →
            (∀ id opts, Call.floatingipsUpdate id opts
                ∈ (ReconcileVIPPort s networkPrefix clusterName openStackCluster st).calls →
                opts.PortID = some port.ID)
            ∧ ((ReconcileVIPPort s networkPrefix clusterName openStackCluster st).err = none →
                ∃ ip, statusRecord
                    (ReconcileVIPPort s networkPrefix clusterName openStackCluster st).cluster
                  = some { Name := port.Name, ID := port.ID, IP := ip })
            ∧ (∀ found st3 fp st4,
                s.checkIfFloatingIPExists openStackCluster.Spec.APIServerLoadBalancerFloatingIP st2
                  = (.ok found, st3) →
                ((found = none
                    ∧ s.floatingipsCreate (floatingIPOptions openStackCluster) st3 = (.ok fp, st4))
                  ∨ (found = some fp ∧ st4 = st3)) →
            (∀ fp1 st5, s.floatingipsUpdate fp.ID { PortID := some port.ID } st4 = (.ok fp1, st5) →
                    ReconcileVIPPort s networkPrefix clusterName openStackCluster st
                      = { err := none
                          cluster :=
                            { Spec := openStackCluster.Spec
                              Status :=
                                { Ready := openStackCluster.Status.Ready
                                  Network := some
                                    { Name := network.Name
                                      ID := network.ID
                                      Subnet := network.Subnet
                                      UnmanagedPort := some
                                        { Name := port.Name, ID := port.ID, IP := fp1.FloatingIP } } } }
                          store := st5
                          calls :=
                            [Call.portsList { Name := portName networkPrefix clusterName }]
                              ++ (if portsList.isEmpty then
                                    [Call.portsCreate
                                      (portOptions networkPrefix clusterName openStackCluster network
                                        subnet)]
                                  else [])
                              ++ [Call.checkIfFloatingIPExists
                                    openStackCluster.Spec.APIServerLoadBalancerFloatingIP]
                              ++ (if found.isNone then
                                    [Call.floatingipsCreate (floatingIPOptions openStackCluster)]
                                  else [])
                              ++ [Call.floatingipsUpdate fp.ID { PortID := some port.ID }] })
                  ∧ (∀ err st5,
                      s.floatingipsUpdate fp.ID { PortID := some port.ID } st4 = (.error err, st5) →
                      ReconcileVIPPort s networkPrefix clusterName openStackCluster st
                        = { err := some ("error allocating floating IP: " ++ err)
                            cluster := openStackCluster
                            store := st5
                            calls :=
                              [Call.portsList { Name := portName networkPrefix clusterName }]
                                ++ (if portsList.isEmpty then
                                      [Call.portsCreate
                                        (portOptions networkPrefix clusterName openStackCluster network
                                          subnet)]
                                    else [])
                                ++ [Call.checkIfFloatingIPExists
                                      openStackCluster.Spec.APIServerLoadBalancerFloatingIP]
                                ++ (if found.isNone then
                                      [Call.floatingipsCreate (floatingIPOptions openStackCluster)]
                                    else [])
                                ++ [Call.floatingipsUpdate fp.ID { PortID := some port.ID }] })))
      ∧ (∀ port rest, portsList = port :: rest →
          (ReconcileVIPPort s networkPrefix clusterName openStackCluster st).calls.filter
              Call.isPortsCreate = []
          ∧ (∀ id opts, Call.floatingipsUpdate id opts
              ∈ (ReconcileVIPPort s networkPrefix clusterName openStackCluster st).calls →
              opts.PortID = some port.ID)
          ∧ ((ReconcileVIPPort s networkPrefix clusterName openStackCluster st).err = none →
              ∃ ip, statusRecord
                  (ReconcileVIPPort s networkPrefix clusterName openStackCluster st).cluster
                = some { Name := port.Name, ID := port.ID, IP := ip })
          ∧ (∀ found st3 fp st4,
              s.checkIfFloatingIPExists openStackCluster.Spec.APIServerLoadBalancerFloatingIP st1
                = (.ok found, st3) →
              ((found = none
                  ∧ s.floatingipsCreate (floatingIPOptions openStackCluster) st3 = (.ok fp, st4))
                ∨ (found = some fp ∧ st4 = st3)) →
          (∀ fp1 st5, s.floatingipsUpdate fp.ID { PortID := some port.ID } st4 = (.ok fp1, st5) →
                  ReconcileVIPPort s networkPrefix clusterName openStackCluster st
                    = { err := none
                        cluster :=
                          { Spec := openStackCluster.Spec
                            Status :=
                              { Ready := openStackCluster.Status.Ready
                                Network := some
                                  { Name := network.Name
                                    ID := network.ID
                                    Subnet := network.Subnet
                                    UnmanagedPort := some
                                      { Name := port.Name, ID := port.ID, IP := fp1.FloatingIP } } } }
                        store := st5
                        calls :=
                          [Call.portsList { Name := portName networkPrefix clusterName }]
                            ++ (if portsList.isEmpty then
                                  [Call.portsCreate
                                    (portOptions networkPrefix clusterName openStackCluster network
                                      subnet)]
                                else [])
                            ++ [Call.checkIfFloatingIPExists
                                  openStackCluster.Spec.APIServerLoadBalancerFloatingIP]
                            ++ (if found.isNone then
                                  [Call.floatingipsCreate (floatingIPOptions openStackCluster)]
                                else [])
                            ++ [Call.floatingipsUpdate fp.ID { PortID := some port.ID }] })
                ∧ (∀ err st5,
                    s.floatingipsUpdate fp.ID { PortID := some port.ID } st4 = (.error err, st5) →
                    ReconcileVIPPort s networkPrefix clusterName openStackCluster st
                      = { err := some ("error allocating floating IP: " ++ err)
                          cluster := openStackCluster
                          store := st5
                          calls :=
                            [Call.portsList { Name := portName networkPrefix clusterName }]
                              ++ (if portsList.isEmpty then
                                    [Call.portsCreate
                                      (portOptions networkPrefix clusterName openStackCluster network
                                        subnet)]
                                  else [])
                              ++ [Call.checkIfFloatingIPExists
                                    openStackCluster.Spec.APIServerLoadBalancerFloatingIP]
                              ++ (if found.isNone then
                                    [Call.floatingipsCreate (floatingIPOptions openStackCluster)]
                                  else [])
                              ++ [Call.floatingipsUpdate fp.ID { PortID := some port.ID }] }))) := by
  have hrun := ReconcileVIPPort_of_listed s networkPrefix clusterName openStackCluster st
    network subnet hnet hsub hid hext allPages st1 portsList hlist hex
  constructor
  · intro hnil
    subst hnil
    constructor
    · rw [hrun]
      dsimp only
      split
      · rfl
      · next newPort st2 hcreate =>
        rw [(floatingIP_uses s openStackCluster network newPort st2 _
          (by intro c hc; simp at hc; rcases hc with h | h <;> subst h <;> rfl)).2.2]
        rfl
    · intro port st2 hcreate
      refine ⟨?_, ?_, ?_⟩
      · rw [hrun]
        simp only [hcreate]
        exact (floatingIP_uses s openStackCluster network port st2
          [Call.portsList { Name := portName networkPrefix clusterName },
            Call.portsCreate
              (portOptions networkPrefix clusterName openStackCluster network subnet)]
          (by intro c hc; simp at hc; rcases hc with h | h <;> subst h <;> rfl)).1
      · rw [hrun]
        simp only [hcreate]
        exact (floatingIP_uses s openStackCluster network port st2
          [Call.portsList { Name := portName networkPrefix clusterName },
            Call.portsCreate
              (portOptions networkPrefix clusterName openStackCluster network subnet)]
          (by intro c hc; simp at hc; rcases hc with h | h <;> subst h <;> rfl)).2.1
      · intro found st3 fp st4 hcheck hfp
        rcases hfp with ⟨rfl, hfc⟩ | ⟨rfl, rfl⟩ <;> constructor <;>
          intro answer st5 hupdate <;>
          simp [ReconcileVIPPort, ReconcileVIPPort.floatingIP, hnet, hsub, hid, hext, hlist,
            hex, hcreate, hcheck, hupdate, *]
  · intro port rest hcons
    subst hcons
    have huse := floatingIP_uses s openStackCluster network port st1
      [Call.portsList { Name := portName networkPrefix clusterName }]
      (by intro c hc; simp at hc; subst hc; rfl)
    refine ⟨?_, ?_, ?_, ?_⟩
    · rw [hrun]
      dsimp only
      rw [huse.2.2]
      rfl
    · rw [hrun]
      exact huse.1
    · rw [hrun]
      exact huse.2.1
    · intro found st3 fp st4 hcheck hfp
      rcases hfp with ⟨rfl, hfc⟩ | ⟨rfl, rfl⟩ <;> constructor <;>
        intro answer st5 hupdate <;>
        simp [ReconcileVIPPort, ReconcileVIPPort.floatingIP, hnet, hsub, hid, hext, hlist,
          hex, hcheck, hupdate, *]

/-- Witness of C9. On the empty in-memory store exactly one port create is
sent and the created port, `P1`, is used: bound to `F1` in the store and
recorded. On the store where two ports carry the name no port is created and
the first listed, `PA`, is used: bound to `F7` in the store and recorded. -/
theorem ReconcileVIPPort_port_resolution_witness :
    ((ReconcileVIPPort memService "openstack" "demo" demoCluster MemStore.empty).calls.filter
          Call.isPortsCreate
        = [Call.portsCreate
            { Name := "openstack-cluster-demo"
              NetworkID := "net-1"
              FixedIPs := [{ SubnetID := "sub-1", IPAddress := "10.0.0.5" }] }]
      ∧ (∀ id opts, Call.floatingipsUpdate id opts
          ∈ (ReconcileVIPPort memService "openstack" "demo" demoCluster MemStore.empty).calls →
          opts.PortID = some "P1")
      ∧ ((ReconcileVIPPort memService "openstack" "demo" demoCluster MemStore.empty).err = none →
          ∃ ip, statusRecord
              (ReconcileVIPPort memService "openstack" "demo" demoCluster MemStore.empty).cluster
            = some { Name := "openstack-cluster-demo", ID := "P1", IP := ip })
      ∧ ReconcileVIPPort memService "openstack" "demo" demoCluster MemStore.empty
        = { err := none
            cluster :=
              { Spec := demoCluster.Spec
                Status :=
                  { Ready := false
                    Network := some
                      { Name := "net"
                        ID := "net-1"
                        Subnet := some demoSubnet
                        UnmanagedPort := some
                          { Name := "openstack-cluster-demo"
                            ID := "P1"
                            IP := "203.0.113.10" } } } }
            store :=
              { ports := [demoPort]
                floatingIPs := [demoFloatingIP "P1"]
                nextPort := 2
                nextFloatingIP := 2 }
            calls :=
              [Call.portsList { Name := "openstack-cluster-demo" },
                Call.portsCreate
                  { Name := "openstack-cluster-demo"
                    NetworkID := "net-1"
                    FixedIPs := [{ SubnetID := "sub-1", IPAddress := "10.0.0.5" }] },
                Call.checkIfFloatingIPExists "203.0.113.10",
                Call.floatingipsCreate
                  { FloatingIP := "203.0.113.10", FloatingNetworkID := "ext-net" },
                Call.floatingipsUpdate "F1" { PortID := some "P1" }] })
      ∧ (ReconcileVIPPort memService "openstack" "demo" demoCluster ambiguous).calls.filter
          Call.isPortsCreate = []
      ∧ (∀ id opts, Call.floatingipsUpdate id opts
          ∈ (ReconcileVIPPort memService "openstack" "demo" demoCluster ambiguous).calls →
          opts.PortID = some "PA")
      ∧ ((ReconcileVIPPort memService "openstack" "demo" demoCluster ambiguous).err = none →
          ∃ ip, statusRecord
              (ReconcileVIPPort memService "openstack" "demo" demoCluster ambiguous).cluster
            = some { Name := "openstack-cluster-demo", ID := "PA", IP := ip })
      ∧ ReconcileVIPPort memService "openstack" "demo" demoCluster ambiguous
        = { err := none
            cluster :=
              { Spec := demoCluster.Spec
                Status :=
                  { Ready := false
                    Network := some
                      { Name := "net"
                        ID := "net-1"
                        Subnet := some demoSubnet
                        UnmanagedPort := some
                          { Name := "openstack-cluster-demo"
                            ID := "PA"
                            IP := "203.0.113.10" } } } }
            store :=
              { ports := ambiguous.ports
                floatingIPs :=
                  [{ ID := "F7", FloatingNetworkID := "ext-net", FloatingIP := "203.0.113.10",
                     PortID := "PA" }]
                nextPort := 1
                nextFloatingIP := 8 }
            calls :=
              [Call.portsList { Name := "openstack-cluster-demo" },
                Call.checkIfFloatingIPExists "203.0.113.10",
                Call.floatingipsUpdate "F7" { PortID := some "PA" }] }
      ∧ (ReconcileVIPPort memService "openstack" "demo" demoCluster MemStore.empty).store
          = { ports := [demoPort], floatingIPs := [demoFloatingIP "P1"], nextPort := 2,
              nextFloatingIP := 2 }
      ∧ statusRecord
          (ReconcileVIPPort memService "openstack" "demo" demoCluster MemStore.empty).cluster
          = some { Name := "openstack-cluster-demo", ID := "P1", IP := "203.0.113.10" }
      ∧ (ReconcileVIPPort memService "openstack" "demo" demoCluster ambiguous).store.floatingIPs
          = [{ ID := "F7", FloatingNetworkID := "ext-net", FloatingIP := "203.0.113.10",
               PortID := "PA" }]
      ∧ statusRecord
          (ReconcileVIPPort memService "openstack" "demo" demoCluster ambiguous).cluster
          = some { Name := "openstack-cluster-demo", ID := "PA", IP := "203.0.113.10" } :=
  have hnone := (ReconcileVIPPort_port_resolution memService "openstack" "demo" demoCluster
    MemStore.empty demoNetwork demoSubnet rfl rfl (by decide) (by decide) [] MemStore.empty []
    rfl rfl).1 rfl
  have hcreated := hnone.2 demoPort onePort rfl
  have hfirst := (ReconcileVIPPort_port_resolution memService "openstack" "demo" demoCluster
    ambiguous demoNetwork demoSubnet rfl rfl (by decide) (by decide) ambiguous.ports ambiguous
    ambiguous.ports rfl rfl).2
    { ID := "PA", NetworkID := "net-1", Name := "openstack-cluster-demo", FixedIPs := [] }
    [{ ID := "PB", NetworkID := "net-1", Name := "openstack-cluster-demo", FixedIPs := [] }]
    rfl
  ⟨⟨hnone.1, hcreated.1, hcreated.2.1,
      (hcreated.2.2 none onePort (demoFloatingIP "")
        { ports := [demoPort], floatingIPs := [demoFloatingIP ""], nextPort := 2,
          nextFloatingIP := 2 }
        rfl (Or.inl ⟨rfl, rfl⟩)).1
        (demoFloatingIP "P1")
        { ports := [demoPort], floatingIPs := [demoFloatingIP "P1"], nextPort := 2,
          nextFloatingIP := 2 }
        rfl⟩,
    hfirst.1, hfirst.2.1, hfirst.2.2.1,
    (hfirst.2.2.2
      (some { ID := "F7", FloatingNetworkID := "ext-net", FloatingIP := "203.0.113.10",
              PortID := "other-port" })
      ambiguous
      { ID := "F7", FloatingNetworkID := "ext-net", FloatingIP := "203.0.113.10",
        PortID := "other-port" }
      ambiguous rfl (Or.inr ⟨rfl, rfl⟩)).1
      { ID := "F7", FloatingNetworkID := "ext-net", FloatingIP := "203.0.113.10",
        PortID := "PA" }
      { ports := ambiguous.ports
        floatingIPs :=
          [{ ID := "F7", FloatingNetworkID := "ext-net", FloatingIP := "203.0.113.10",
             PortID := "PA" }]
        nextPort := 1
        nextFloatingIP := 8 }
      rfl,
    by decide, by decide, by decide, by decide⟩

/-- C10. In every run in which the port is resolved (created after an empty
listing, or the first listed) and the floating IP is found by the lookup or
created, the requests are: the port requests, the lookup, a floating-IP create
exactly when the lookup found none, and last one association update, of the
found-or-created floating IP's ID, with the resolved port's ID as port
reference. The update is sent whatever port the floating IP `fp` refers to
before, and it is made on the store: the run ends in the store the update
leaves, with the status record written from its answer when it succeeds and
with its error, behind `error allocating floating IP: `, when it fails. -/
theorem ReconcileVIPPort_associates_last {σ π : Type} (s : Service σ π)
    (networkPrefix clusterName : String) (openStackCluster : infrav1.OpenStackCluster)
    (st : σ) (network : infrav1.Network) (subnet : infrav1.Subnet)
    (hnet : openStackCluster.Status.Network = some network)
    (hsub : network.Subnet = some subnet) (hid : subnet.ID ≠ "")
    (hext : openStackCluster.Spec.ExternalNetworkID ≠ "")
    (allPages : π) (st1 : σ) (portsList : List ports.Port)
    (hlist : s.portsList { Name := portName networkPrefix clusterName } st
      = (.ok allPages, st1))
    (hex : s.ExtractPorts allPages = .ok portsList)
    (port : ports.Port) (st2 : σ)
    (hport : (portsList = [] ∧ s.portsCreate
          (portOptions networkPrefix clusterName openStackCluster network subnet) st1
          = (.ok port, st2))
      ∨ (portsList.head? = some port ∧ st2 = st1))
    (found : Option floatingips.FloatingIP) (st3 : σ)
    (hcheck : s.checkIfFloatingIPExists
      openStackCluster.Spec.APIServerLoadBalancerFloatingIP st2 = (.ok found, st3))
    (fp : floatingips.FloatingIP) (st4 : σ)
    (hfp : (found = none
        ∧ s.floatingipsCreate (floatingIPOptions openStackCluster) st3 = (.ok fp, st4))
      ∨ (found = some fp ∧ st4 = st3)) :
    (ReconcileVIPPort s networkPrefix clusterName openStackCluster st).calls
        = [Call.portsList { Name := portName networkPrefix clusterName }]
          ++ (if portsList.isEmpty then
                [Call.portsCreate
                  (portOptions networkPrefix clusterName openStackCluster network subnet)]
              else [])
          ++ [Call.checkIfFloatingIPExists
                openStackCluster.Spec.APIServerLoadBalancerFloatingIP]
          ++ (if found.isNone then
                [Call.floatingipsCreate
                  { FloatingIP := openStackCluster.Spec.APIServerLoadBalancerFloatingIP
                    FloatingNetworkID := openStackCluster.Spec.ExternalNetworkID }]
              else [])
          ++ [Call.floatingipsUpdate fp.ID { PortID := some port.ID }]
      ∧ (ReconcileVIPPort s networkPrefix clusterName openStackCluster st).calls.filter
          Call.isFloatingipsUpdate = [Call.floatingipsUpdate fp.ID { PortID := some port.ID }]
      ∧ (ReconcileVIPPort s networkPrefix clusterName openStackCluster st).calls.getLast?
          = some (Call.floatingipsUpdate fp.ID { PortID := some port.ID })
      ∧ ((ReconcileVIPPort s networkPrefix clusterName openStackCluster st).calls.filter
          Call.isFloatingipsCreate ≠ [] ↔ found = none)
      ∧ (∀ fp1 st5, s.floatingipsUpdate fp.ID { PortID := some port.ID } st4 = (.ok fp1, st5) →
        ReconcileVIPPort s networkPrefix clusterName openStackCluster st
          = { err := none
              cluster :=
                { Spec := openStackCluster.Spec
                  Status :=
                    { Ready := openStackCluster.Status.Ready
                      Network := some
                        { Name := network.Name
                          ID := network.ID
                          Subnet := network.Subnet
                          UnmanagedPort := some
                            { Name := port.Name, ID := port.ID, IP := fp1.FloatingIP } } } }
              store := st5
              calls :=
                [Call.portsList { Name := portName networkPrefix clusterName }]
                  ++ (if portsList.isEmpty then
                        [Call.portsCreate
                          (portOptions networkPrefix clusterName openStackCluster network
                            subnet)]
                      else [])
                  ++ [Call.checkIfFloatingIPExists
                        openStackCluster.Spec.APIServerLoadBalancerFloatingIP]
                  ++ (if found.isNone then
                        [Call.floatingipsCreate (floatingIPOptions openStackCluster)]
                      else [])
                  ++ [Call.floatingipsUpdate fp.ID { PortID := some port.ID }] })
      ∧ (∀ err st5,
          s.floatingipsUpdate fp.ID { PortID := some port.ID } st4 = (.error err, st5) →
          ReconcileVIPPort s networkPrefix clusterName openStackCluster st
            = { err := some ("error allocating floating IP: " ++ err)
                cluster := openStackCluster
                store := st5
                calls :=
                  [Call.portsList { Name := portName networkPrefix clusterName }]
                    ++ (if portsList.isEmpty then
                          [Call.portsCreate
                            (portOptions networkPrefix clusterName openStackCluster network
                              subnet)]
                        else [])
                    ++ [Call.checkIfFloatingIPExists
                          openStackCluster.Spec.APIServerLoadBalancerFloatingIP]
                    ++ (if found.isNone then
                          [Call.floatingipsCreate (floatingIPOptions openStackCluster)]
                        else [])
                    ++ [Call.floatingipsUpdate fp.ID { PortID := some port.ID }] }) := by
  rcases hport with ⟨rfl, hcreate⟩ | ⟨hhead, rfl⟩
  · rcases hfp with ⟨rfl, hfc⟩ | ⟨rfl, rfl⟩ <;>
      rcases hupdate : s.floatingipsUpdate fp.ID { PortID := some port.ID } st4
        with ⟨(err | fp1), st5⟩ <;>
      simp [ReconcileVIPPort, ReconcileVIPPort.floatingIP, hnet, hsub, hid, hext, hlist, hex,
        hcreate, hcheck, hupdate, Call.isFloatingipsUpdate, Call.isFloatingipsCreate,
        List.filter_cons, *]
  · cases portsList with
    | nil => cases hhead
    | cons first rest =>
      simp only [List.head?_cons, Option.some.injEq] at hhead
      subst hhead
      rcases hfp with ⟨rfl, hfc⟩ | ⟨rfl, rfl⟩ <;>
        rcases hupdate : s.floatingipsUpdate fp.ID { PortID := some first.ID } st4
          with ⟨(err | fp1), st5⟩ <;>
        simp [ReconcileVIPPort, ReconcileVIPPort.floatingIP, hnet, hsub, hid, hext, hlist, hex,
          hcheck, hupdate, Call.isFloatingipsUpdate, Call.isFloatingipsCreate,
          List.filter_cons, *]

/-- Witness of C10: the floating IP `F7` exists and is associated with another
port; no floating IP is created, the one update binds `F7` to `PA` in the
store, and the status record is written from its answer. -/
theorem ReconcileVIPPort_associates_last_witness :
    (ReconcileVIPPort memService "openstack" "demo" demoCluster ambiguous).calls
        = [Call.portsList { Name := "openstack-cluster-demo" },
            Call.checkIfFloatingIPExists "203.0.113.10",
            Call.floatingipsUpdate "F7" { PortID := some "PA" }]
      ∧ (ReconcileVIPPort memService "openstack" "demo" demoCluster ambiguous).calls.filter
          Call.isFloatingipsUpdate = [Call.floatingipsUpdate "F7" { PortID := some "PA" }]
      ∧ (ReconcileVIPPort memService "openstack" "demo" demoCluster ambiguous).calls.getLast?
          = some (Call.floatingipsUpdate "F7" { PortID := some "PA" })
      ∧ ((ReconcileVIPPort memService "openstack" "demo" demoCluster ambiguous).calls.filter
          Call.isFloatingipsCreate ≠ []
        ↔ some ({ ID := "F7", FloatingNetworkID := "ext-net", FloatingIP := "203.0.113.10",
                  PortID := "other-port" } : floatingips.FloatingIP) = none)
      ∧ ReconcileVIPPort memService "openstack" "demo" demoCluster ambiguous
        = { err := none
            cluster :=
              { Spec := demoCluster.Spec
                Status :=
                  { Ready := false
                    Network := some
                      { Name := "net"
                        ID := "net-1"
                        Subnet := some demoSubnet
                        UnmanagedPort := some
                          { Name := "openstack-cluster-demo"
                            ID := "PA"
                            IP := "203.0.113.10" } } } }
            store :=
              { ports := ambiguous.ports
                floatingIPs :=
                  [{ ID := "F7", FloatingNetworkID := "ext-net", FloatingIP := "203.0.113.10",
                     PortID := "PA" }]
                nextPort := 1
                nextFloatingIP := 8 }
            calls :=
              [Call.portsList { Name := "openstack-cluster-demo" },
                Call.checkIfFloatingIPExists "203.0.113.10",
                Call.floatingipsUpdate "F7" { PortID := some "PA" }] }
      ∧ (ReconcileVIPPort memService "openstack" "demo" demoCluster ambiguous).store.floatingIPs
          = [{ ID := "F7", FloatingNetworkID := "ext-net", FloatingIP := "203.0.113.10",
               PortID := "PA" }]
      ∧ statusRecord
          (ReconcileVIPPort memService "openstack" "demo" demoCluster ambiguous).cluster
          = some { Name := "openstack-cluster-demo", ID := "PA", IP := "203.0.113.10" } :=
  have h := ReconcileVIPPort_associates_last memService "openstack" "demo" demoCluster ambiguous
    demoNetwork demoSubnet
    rfl rfl (by decide) (by decide) ambiguous.ports ambiguous ambiguous.ports
    rfl rfl
    { ID := "PA", NetworkID := "net-1", Name := "openstack-cluster-demo", FixedIPs := [] }
    ambiguous (Or.inr ⟨rfl, rfl⟩)
    (some { ID := "F7", FloatingNetworkID := "ext-net", FloatingIP := "203.0.113.10",
            PortID := "other-port" })
    ambiguous rfl
    { ID := "F7", FloatingNetworkID := "ext-net", FloatingIP := "203.0.113.10",
      PortID := "other-port" }
    ambiguous (Or.inr ⟨rfl, rfl⟩)
  ⟨h.1, h.2.1, h.2.2.1, h.2.2.2.1,
    h.2.2.2.2.1
      { ID := "F7", FloatingNetworkID := "ext-net", FloatingIP := "203.0.113.10",
        PortID := "PA" }
      { ports := ambiguous.ports
        floatingIPs :=
          [{ ID := "F7", FloatingNetworkID := "ext-net", FloatingIP := "203.0.113.10",
             PortID := "PA" }]
        nextPort := 1
        nextFloatingIP := 8 }
      rfl,
    by decide, by decide⟩

/-- C5, as the code has it. The scenario. The store lists no port of the
name, creates the port `port`, finds no floating IP at the desired address,
creates the floating IP `fp` and answers the association with `fp1`. Then
`ReconcileVIPPort` sends exactly these five requests, the listing and the
port create carrying the name (`networkPrefix`, `-cluster-`, the cluster
name), the port create also the fixed IP on the subnet, the floating-IP create
the desired address on the external network, the update binding `fp` to
`port`;
it returns no error, leaves the store as the update left it and sets the
status record to the name and ID of `port` and the address of `fp1`, as the
store returned them, changing nothing else of the cluster object. The record
is the port name, `port.ID` and the desired address whenever the store
returned the port under the requested name and the floating IP at the desired
address. -/
theorem ReconcileVIPPort_scenario {σ π : Type} (s : Service σ π)
    (networkPrefix clusterName : String) (openStackCluster : infrav1.OpenStackCluster)
    (st : σ) (network : infrav1.Network) (subnet : infrav1.Subnet)
    (hnet : openStackCluster.Status.Network = some network)
    (hsub : network.Subnet = some subnet) (hid : subnet.ID ≠ "")
    (hext : openStackCluster.Spec.ExternalNetworkID ≠ "")
    (allPages : π) (st1 : σ)
    (hlist : s.portsList { Name := portName networkPrefix clusterName } st
      = (.ok allPages, st1))
    (hex : s.ExtractPorts allPages = .ok [])
    (port : ports.Port) (st2 : σ)
    (hcreate : s.portsCreate
      { Name := portName networkPrefix clusterName
        NetworkID := network.ID
        FixedIPs := [{ SubnetID := subnet.ID
                       IPAddress := openStackCluster.Spec.ControlPlaneInternalIP }] } st1
      = (.ok port, st2))
    (st3 : σ)
    (hcheck : s.checkIfFloatingIPExists
      openStackCluster.Spec.APIServerLoadBalancerFloatingIP st2 = (.ok none, st3))
    (fp : floatingips.FloatingIP) (st4 : σ)
    (hfip : s.floatingipsCreate
      { FloatingIP := openStackCluster.Spec.APIServerLoadBalancerFloatingIP
        FloatingNetworkID := openStackCluster.Spec.ExternalNetworkID } st3 = (.ok fp, st4))
    (fp1 : floatingips.FloatingIP) (st5 : σ)
    (hupdate : s.floatingipsUpdate fp.ID { PortID := some port.ID } st4 = (.ok fp1, st5)) :
    ReconcileVIPPort s networkPrefix clusterName openStackCluster st
        = { err := none
            cluster :=
              { Spec := openStackCluster.Spec
                Status :=
                  { Ready := openStackCluster.Status.Ready
                    Network := some
                      { Name := network.Name
                        ID := network.ID
                        Subnet := network.Subnet
                        UnmanagedPort := some
                          { Name := port.Name
                            ID := port.ID
                            IP := fp1.FloatingIP } } } }
            store := st5
            calls :=
              [Call.portsList { Name := networkPrefix ++ "-cluster-" ++ clusterName },
                Call.portsCreate
                  { Name := networkPrefix ++ "-cluster-" ++ clusterName
                    NetworkID := network.ID
                    FixedIPs :=
                      [{ SubnetID := subnet.ID
                         IPAddress := openStackCluster.Spec.ControlPlaneInternalIP }] },
                Call.checkIfFloatingIPExists
                  openStackCluster.Spec.APIServerLoadBalancerFloatingIP,
                Call.floatingipsCreate
                  { FloatingIP := openStackCluster.Spec.APIServerLoadBalancerFloatingIP
                    FloatingNetworkID := openStackCluster.Spec.ExternalNetworkID },
                Call.floatingipsUpdate fp.ID { PortID := some port.ID }] }
      ∧ (port.Name = networkPrefix ++ "-cluster-" ++ clusterName →
          fp1.FloatingIP = openStackCluster.Spec.APIServerLoadBalancerFloatingIP →
          statusRecord (ReconcileVIPPort s networkPrefix clusterName openStackCluster st).cluster
            = some
                { Name := networkPrefix ++ "-cluster-" ++ clusterName
                  ID := port.ID
                  IP := openStackCluster.Spec.APIServerLoadBalancerFloatingIP }) := by
  simp only [portName] at hlist hcreate
  constructor
  · simp [ReconcileVIPPort, ReconcileVIPPort.floatingIP, portName, hnet, hsub, hid, hext,
      hlist, hex, hcreate, hcheck, hfip, hupdate]
  · intro hname haddress
    simp [ReconcileVIPPort, ReconcileVIPPort.floatingIP, portName, hnet, hsub, hid, hext,
      hlist, hex, hcreate, hcheck, hfip, hupdate, hname, haddress, statusRecord]

/-- Counterexample to C5 as stated. On the empty in-memory store, with the
floating-IP address left to the provider, every condition of the claim holds:
no port of the name, no floating IP at the desired (empty) address, every
request succeeds. The status record gets the address of the update's answer,
`198.51.100.1`, not the desired address. On the store that names the created
port `vip` the record gets that name, not the VIP port's name. -/
theorem ReconcileVIPPort_record_is_the_answer :
    memService.portsList { Name := portName "openstack" "demo" } MemStore.empty
        = (.ok [], MemStore.empty)
      ∧ memService.checkIfFloatingIPExists providerAssigned.Spec.APIServerLoadBalancerFloatingIP
          onePort = (.ok none, onePort)
      ∧ (ReconcileVIPPort memService "openstack" "demo" providerAssigned MemStore.empty).err
          = none
      ∧ (ReconcileVIPPort memService "openstack" "demo" providerAssigned MemStore.empty).calls
          = [Call.portsList { Name := "openstack-cluster-demo" },
              Call.portsCreate
                { Name := "openstack-cluster-demo"
                  NetworkID := "net-1"
                  FixedIPs := [{ SubnetID := "sub-1", IPAddress := "10.0.0.5" }] },
              Call.checkIfFloatingIPExists "",
              Call.floatingipsCreate { FloatingIP := "", FloatingNetworkID := "ext-net" },
              Call.floatingipsUpdate "F1" { PortID := some "P1" }]
      ∧ statusRecord
          (ReconcileVIPPort memService "openstack" "demo" providerAssigned
            MemStore.empty).cluster
          = some { Name := "openstack-cluster-demo", ID := "P1", IP := "198.51.100.1" }
      ∧ statusRecord
          (ReconcileVIPPort memService "openstack" "demo" providerAssigned
            MemStore.empty).cluster
          ≠ some
              { Name := portName "openstack" "demo"
                ID := "P1"
                IP := providerAssigned.Spec.APIServerLoadBalancerFloatingIP }
      ∧ (ReconcileVIPPort renames "openstack" "demo" demoCluster ()).err = none
      ∧ statusRecord (ReconcileVIPPort renames "openstack" "demo" demoCluster ()).cluster
          = some { Name := "vip", ID := "P1", IP := "203.0.113.10" }
      ∧ statusRecord (ReconcileVIPPort renames "openstack" "demo" demoCluster ()).cluster
          ≠ some
              { Name := portName "openstack" "demo"
                ID := "P1"
                IP := demoCluster.Spec.APIServerLoadBalancerFloatingIP } :=
  ⟨rfl, rfl, by decide, by decide, by decide, by decide, by decide, by decide, by decide⟩

/-- Witness of C5: the scenario of the spec on the empty in-memory store,
with `networkPrefix` `openstack` and cluster name `demo`: the store numbers
the port `P1` and the floating IP `F1`, returns the port under the requested
name and the floating IP at the desired address, and the status record is
`openstack-cluster-demo`, `P1`, `203.0.113.10`. -/
theorem ReconcileVIPPort_scenario_witness :
    ReconcileVIPPort memService "openstack" "demo" demoCluster MemStore.empty
        = { err := none
            cluster :=
              { Spec := demoCluster.Spec
                Status :=
                  { Ready := false
                    Network := some
                      { Name := "net"
                        ID := "net-1"
                        Subnet := some demoSubnet
                        UnmanagedPort := some
                          { Name := "openstack-cluster-demo"
                            ID := "P1"
                            IP := "203.0.113.10" } } } }
            store :=
              { ports := [demoPort]
                floatingIPs := [demoFloatingIP "P1"]
                nextPort := 2
                nextFloatingIP := 2 }
            calls :=
              [Call.portsList { Name := "openstack-cluster-demo" },
                Call.portsCreate
                  { Name := "openstack-cluster-demo"
                    NetworkID := "net-1"
                    FixedIPs := [{ SubnetID := "sub-1", IPAddress := "10.0.0.5" }] },
                Call.checkIfFloatingIPExists "203.0.113.10",
                Call.floatingipsCreate
                  { FloatingIP := "203.0.113.10", FloatingNetworkID := "ext-net" },
                Call.floatingipsUpdate "F1" { PortID := some "P1" }] }
      ∧ statusRecord
          (ReconcileVIPPort memService "openstack" "demo" demoCluster MemStore.empty).cluster
        = some { Name := "openstack-cluster-demo", ID := "P1", IP := "203.0.113.10" }
      ∧ (ReconcileVIPPort memService "openstack" "demo" demoCluster MemStore.empty).err = none
      ∧ (ReconcileVIPPort memService "openstack" "demo" demoCluster MemStore.empty).store
          = { ports := [demoPort], floatingIPs := [demoFloatingIP "P1"], nextPort := 2,
              nextFloatingIP := 2 }
      ∧ (statusRecord
          (ReconcileVIPPort memService "openstack" "demo" demoCluster
            MemStore.empty).cluster).map (fun record => record.IP)
          = some "203.0.113.10" :=
  have h := ReconcileVIPPort_scenario memService "openstack" "demo" demoCluster MemStore.empty
    demoNetwork demoSubnet
    rfl rfl (by decide) (by decide) [] MemStore.empty rfl rfl
    demoPort { ports := [demoPort], floatingIPs := [], nextPort := 2, nextFloatingIP := 1 }
    rfl
    { ports := [demoPort], floatingIPs := [], nextPort := 2, nextFloatingIP := 1 } rfl
    (demoFloatingIP "")
    { ports := [demoPort], floatingIPs := [demoFloatingIP ""], nextPort := 2,
      nextFloatingIP := 2 }
    rfl
    (demoFloatingIP "P1")
    { ports := [demoPort], floatingIPs := [demoFloatingIP "P1"], nextPort := 2,
      nextFloatingIP := 2 }
    rfl
  ⟨h.1, h.2 rfl rfl, by decide, by decide, by decide⟩

end networking
